import Mathlib

/-!
Verification of the user-management slice of the fastapi-boilerplate
repository: the `UserRepositoryAdapter` (a pure forwarding layer over an
underlying repository, from
`src/app/user/adapter/output/persistence/repository_adapter.py`) and the
`UserService` business rules (password confirmation, duplicate
email/nickname rejection, admin-flag lookup, login token issuance).
The service itself is not among the shipped source files, so it is
modelled from the specification; the adapter is embedded from its source.
Geographic coordinates are carried opaquely by the service (no arithmetic
is ever performed on them), so they are embedded as integers.
-/

/-- Modelled from the spec: value object `Location` from
`app.user.domain.vo.location` (not under `src/`) — a latitude/longitude
pair, always attached to a `User`. -/
structure Location where
  lat : Int
  lng : Int
deriving DecidableEq, Repr

/-- Modelled from the spec: entity `User` from
`app.user.domain.entity.user` (not under `src/`) — id is optional,
assigned by persistence; email and nickname are unique among persisted
users; `is_admin` defaults to false. -/
structure User where
  id : Option Int := none
  password : String
  email : String
  nickname : String
  is_admin : Bool := false
  location : Location
deriving DecidableEq, Repr

/-- Modelled from the spec: projection `UserRead` from
`app.user.domain.entity.user` (not under `src/`) — exposes id, email and
nickname only, used for list responses. -/
structure UserRead where
  id : Option Int
  email : String
  nickname : String
deriving DecidableEq, Repr

/-- Projection of a `User` to its `UserRead` view. -/
def User.toRead (u : User) : UserRead :=
  { id := u.id, email := u.email, nickname := u.nickname }

/-- Modelled from the spec: transient input value `CreateUserCommand` from
`app.user.domain.command` (not under `src/`) — email, confirmation
password pair, nickname and coordinates. -/
structure CreateUserCommand where
  email : String
  password1 : String
  password2 : String
  nickname : String
  lat : Int
  lng : Int
deriving DecidableEq, Repr

section Adapter

/-!
Embedding of `UserRepositoryAdapter` from
`src/app/user/adapter/output/persistence/repository_adapter.py`.
The underlying repository interface (`UserRepo`) is abstract in the
source as well; each of its methods may fail (any exception from the
store), which the embedding captures with `Except ε`.
-/

variable {ε : Type}

/-- The underlying repository interface `UserRepo` consumed by the
adapter. Each method either returns its result or fails with a
store-level error `ε`. -/
structure UserRepo (ε : Type) where
  get_users : Int → Option Int → Except ε (List User)
  get_user_by_email_or_nickname : String → String → Except ε (Option User)
  get_user_by_id : Int → Except ε (Option User)
  get_user_by_email_and_password : String → String → Except ε (Option User)
  save : User → Except ε Unit

/-- The adapter holds one underlying repository (`self.user_repo`). -/
structure UserRepositoryAdapter (ε : Type) where
  user_repo : UserRepo ε

/-- `UserRepositoryAdapter.get_users(limit=12, prev=None)` forwards to
`self.user_repo.get_users(limit=limit, prev=prev)`. -/
def UserRepositoryAdapter.get_users (a : UserRepositoryAdapter ε)
    (limit : Int := 12) (prev : Option Int := none) :
    Except ε (List User) :=
  a.user_repo.get_users limit prev

/-- `UserRepositoryAdapter.get_user_by_email_or_nickname` forwards to the
underlying repository. -/
def UserRepositoryAdapter.get_user_by_email_or_nickname
    (a : UserRepositoryAdapter ε) (email nickname : String) :
    Except ε (Option User) :=
  a.user_repo.get_user_by_email_or_nickname email nickname

/-- `UserRepositoryAdapter.get_user_by_id` forwards to the underlying
repository. -/
def UserRepositoryAdapter.get_user_by_id (a : UserRepositoryAdapter ε)
    (user_id : Int) : Except ε (Option User) :=
  a.user_repo.get_user_by_id user_id

/-- `UserRepositoryAdapter.get_user_by_email_and_password` forwards to
the underlying repository. -/
def UserRepositoryAdapter.get_user_by_email_and_password
    (a : UserRepositoryAdapter ε) (email password : String) :
    Except ε (Option User) :=
  a.user_repo.get_user_by_email_and_password email password

/-- `UserRepositoryAdapter.save` forwards to the underlying repository
and returns none (unit). -/
def UserRepositoryAdapter.save (a : UserRepositoryAdapter ε)
    (user : User) : Except ε Unit :=
  a.user_repo.save user

end Adapter

section Service

/-!
Modelled from the spec: `UserService` from
`app.user.application.service.user` is not under `src/`; only its test
suite (`src/tests/app/user/application/service/test_user.py`) is. The
service is embedded from the specification's inferred contract (spec
sections 4.2, 7, 8), parametric over a repository implementation so
that the tests' mocked repositories are instances. Each operation
returns its result (with the three typed exceptions as `Except` errors),
the repository state after the call, and the ordered trace of repository
calls it performed.
-/

/-- The three typed exceptions raised by the service's validation
checks. -/
inductive UserServiceError where
  | passwordDoesNotMatch
  | duplicateEmailOrNickname
  | userNotFound
deriving DecidableEq, Repr

/-- One repository call performed by the service, recorded with its
arguments, in order. -/
inductive RepoCall where
  | get_users (limit : Int) (prev : Option Int)
  | get_user_by_email_or_nickname (email nickname : String)
  | get_user_by_id (user_id : Int)
  | get_user_by_email_and_password (email password : String)
  | save (user : User)
deriving DecidableEq, Repr

/-- Is this repository call a `save`? -/
def RepoCall.isSave : RepoCall → Bool
  | .save _ => true
  | _ => false

/-- A repository implementation over a store state `σ`: the five
methods of the repository interface consumed by the service. Reads
leave the store unchanged; `save` returns the updated store. -/
structure RepoImpl (σ : Type) where
  get_users : σ → Int → Option Int → List User
  get_user_by_email_or_nickname : σ → String → String → Option User
  get_user_by_id : σ → Int → Option User
  get_user_by_email_and_password : σ → String → String → Option User
  save : σ → User → σ

/-- A token-signing payload: either `{"user_id": id}` (the user's
optional id) or `{"sub": value}`. -/
inductive Payload where
  | user_id (id : Option Int)
  | sub (value : String)
deriving DecidableEq, Repr

/-- The token pair returned by a successful login. -/
structure LoginResponse where
  token : String
  refresh_token : String
deriving DecidableEq, Repr

/-- Modelled from the spec: `UserService.get_user_list(limit, prev)` —
fetches Users via the repository and maps each to `UserRead`. -/
def get_user_list {σ : Type} (r : RepoImpl σ) (s : σ)
    (limit : Int) (prev : Option Int) :
    List UserRead × σ × List RepoCall :=
  ((r.get_users s limit prev).map User.toRead, s,
    [RepoCall.get_users limit prev])

/-- Modelled from the spec: `UserService.create_user(command)` — fails
with `PasswordDoesNotMatchException` when password1 ≠ password2; fails
with `DuplicateEmailOrNicknameException` when a User with matching email
or nickname already exists; otherwise constructs a User (storing the
password, attaching a Location from lat/lng, is_admin false) and calls
`save`. -/
def create_user {σ : Type} (r : RepoImpl σ) (s : σ)
    (command : CreateUserCommand) :
    Except UserServiceError Unit × σ × List RepoCall :=
  if command.password1 = command.password2 then
    match r.get_user_by_email_or_nickname s command.email command.nickname with
    | some _ =>
      (.error .duplicateEmailOrNickname, s,
        [RepoCall.get_user_by_email_or_nickname command.email command.nickname])
    | none =>
      let user : User :=
        { password := command.password1
          email := command.email
          nickname := command.nickname
          is_admin := false
          location := { lat := command.lat, lng := command.lng } }
      (.ok (), r.save s user,
        [RepoCall.get_user_by_email_or_nickname command.email command.nickname,
         RepoCall.save user])
  else
    (.error .passwordDoesNotMatch, s, [])

/-- Modelled from the spec: `UserService.is_admin(user_id)` — returns
false if no User exists for the id; otherwise returns the User's
is_admin flag. It raises no exception. -/
def is_admin {σ : Type} (r : RepoImpl σ) (s : σ) (user_id : Int) :
    Except UserServiceError Bool × σ × List RepoCall :=
  match r.get_user_by_id s user_id with
  | none => (.ok false, s, [RepoCall.get_user_by_id user_id])
  | some u => (.ok u.is_admin, s, [RepoCall.get_user_by_id user_id])

/-- Modelled from the spec: `UserService.login(email, password)` — fails
with `UserNotFoundException` when no User matches the email/password
pair; otherwise returns a token pair produced by the external signing
helper `encode`: an access token encoding the user id and a refresh
token encoding the fixed "refresh" subject. -/
def login {σ : Type} (encode : Payload → String) (r : RepoImpl σ) (s : σ)
    (email password : String) :
    Except UserServiceError LoginResponse × σ × List RepoCall :=
  match r.get_user_by_email_and_password s email password with
  | none =>
    (.error .userNotFound, s,
      [RepoCall.get_user_by_email_and_password email password])
  | some u =>
    (.ok { token := encode (Payload.user_id u.id)
           refresh_token := encode (Payload.sub "refresh") }, s,
      [RepoCall.get_user_by_email_and_password email password])

/-- Modelled from the spec: a list-backed repository implementation
(standing in for the SQL-backed `UserSQLAlchemyRepo`, not under `src/`):
the store is the ordered list of persisted users; lookups scan the list,
`save` appends. -/
def listRepo : RepoImpl (List User) where
  get_users s limit _prev := s.take limit.toNat
  get_user_by_email_or_nickname s email nickname :=
    s.find? fun u => u.email == email || u.nickname == nickname
  get_user_by_id s user_id := s.find? fun u => u.id == some user_id
  get_user_by_email_and_password s email password :=
    s.find? fun u => u.email == email && u.password == password
  save s user := s ++ [user]

/-- The persisted-store invariant: no two persisted Users share an email
or a nickname. -/
def uniqueEmailsAndNicknames (s : List User) : Prop :=
  s.Pairwise fun a b => a.email ≠ b.email ∧ a.nickname ≠ b.nickname

end Service

/-- Claim C7: every `UserRepositoryAdapter` method forwards its arguments
unchanged to the underlying repository's method of the same name and
returns that method's result unchanged (`save` returning none);
`get_users` defaults `limit` to 12 (and `prev` to none) when the caller
omits them; no validation is performed, so a failure of the underlying
store is returned unchanged. -/
theorem adapter_pure_forwarding {ε : Type} (a : UserRepositoryAdapter ε)
    (limit : Int) (prev : Option Int) (email nickname password : String)
    (user_id : Int) (user : User) :
    a.get_users limit prev = a.user_repo.get_users limit prev ∧
    (a.get_users : Except ε (List User)) = a.user_repo.get_users 12 none ∧
    a.get_user_by_email_or_nickname email nickname =
      a.user_repo.get_user_by_email_or_nickname email nickname ∧
    a.get_user_by_id user_id = a.user_repo.get_user_by_id user_id ∧
    a.get_user_by_email_and_password email password =
      a.user_repo.get_user_by_email_and_password email password ∧
    a.save user = a.user_repo.save user :=
  ⟨rfl, rfl, rfl, rfl, rfl, rfl⟩

/-- The mismatching-passwords command used in the tests. -/
def cmdMismatch : CreateUserCommand :=
  { email := "h@id.e", password1 := "a", password2 := "b"
    nickname := "hide", lat := 37, lng := 127 }

/-- The matching-passwords command used in the tests. -/
def cmdMatch : CreateUserCommand :=
  { email := "h@id.e", password1 := "a", password2 := "a"
    nickname := "hide", lat := 37, lng := 127 }

/-- A persisted user sharing the test command's email and nickname. -/
def hideUser : User :=
  { password := "password", email := "h@id.e", nickname := "hide"
    is_admin := false, location := { lat := 37, lng := 127 } }

/-- A persisted admin user with id 1. -/
def adminUser : User :=
  { id := some 1, password := "password", email := "h@id.e"
    nickname := "hide", is_admin := true
    location := { lat := 37, lng := 127 } }

/-- A concrete stand-in for the external token-signing helper. -/
def encodeStub : Payload → String
  | .user_id _ => "access-token"
  | .sub _ => "sub-token"

/-- Claim C1: for every `CreateUserCommand` whose password1 differs from
password2, `create_user` raises `PasswordDoesNotMatchException`,
regardless of the values of email, nickname, lat, lng, and of the
repository's contents. -/
theorem create_user_password_mismatch {σ : Type} (r : RepoImpl σ) (s : σ)
    (command : CreateUserCommand)
    (h : command.password1 ≠ command.password2) :
    (create_user r s command).1 = .error .passwordDoesNotMatch := by
  simp [create_user, h]

/-- Witness for C1: the test's command with password1 = "a",
password2 = "b" against the empty list-backed store. -/
theorem create_user_password_mismatch_witness :
    cmdMismatch.password1 ≠ cmdMismatch.password2 ∧
    (create_user listRepo [] cmdMismatch).1 = .error .passwordDoesNotMatch :=
  ⟨by decide, create_user_password_mismatch listRepo [] cmdMismatch (by decide)⟩

/-- Claim C2: for every `CreateUserCommand` with password1 equal to
password2, if the repository's lookup by email or nickname returns an
existing `User`, `create_user` raises
`DuplicateEmailOrNicknameException` and does not call `save`. -/
theorem create_user_duplicated {σ : Type} (r : RepoImpl σ) (s : σ)
    (command : CreateUserCommand) (u : User)
    (hp : command.password1 = command.password2)
    (hd : r.get_user_by_email_or_nickname s command.email command.nickname
            = some u) :
    (create_user r s command).1 = .error .duplicateEmailOrNickname ∧
    ∀ v : User, RepoCall.save v ∉ (create_user r s command).2.2 := by
  constructor
  · simp [create_user, hp, hd]
  · intro v
    simp [create_user, hp, hd]

/-- Witness for C2: the test's matching-passwords command against a
store already holding a user with the same email and nickname. -/
theorem create_user_duplicated_witness :
    cmdMatch.password1 = cmdMatch.password2 ∧
    listRepo.get_user_by_email_or_nickname [hideUser] cmdMatch.email
      cmdMatch.nickname = some hideUser ∧
    ((create_user listRepo [hideUser] cmdMatch).1
        = .error .duplicateEmailOrNickname ∧
      ∀ v : User,
        RepoCall.save v ∉ (create_user listRepo [hideUser] cmdMatch).2.2) :=
  ⟨rfl, rfl, create_user_duplicated listRepo [hideUser] cmdMatch hideUser rfl rfl⟩

/-- Claim C3: for every `CreateUserCommand` with password1 equal to
password2 and no existing `User` sharing its email or nickname,
`create_user` constructs a `User` with is_admin false and a `Location`
built from the command's lat and lng, and calls the repository's `save`
exactly once. -/
theorem create_user_success {σ : Type} (r : RepoImpl σ) (s : σ)
    (command : CreateUserCommand)
    (hp : command.password1 = command.password2)
    (hn : r.get_user_by_email_or_nickname s command.email command.nickname
            = none) :
    ∃ user : User,
      user.is_admin = false ∧
      user.location = { lat := command.lat, lng := command.lng } ∧
      create_user r s command =
        (.ok (), r.save s user,
          [RepoCall.get_user_by_email_or_nickname command.email
             command.nickname,
           RepoCall.save user]) ∧
      ((create_user r s command).2.2.countP RepoCall.isSave) = 1 := by
  refine ⟨{ password := command.password1, email := command.email
            nickname := command.nickname, is_admin := false
            location := { lat := command.lat, lng := command.lng } },
          rfl, rfl, ?_, ?_⟩
  · simp [create_user, hp, hn]
  · simp [create_user, hp, hn, List.countP_cons, RepoCall.isSave]

/-- Witness for C3: the test's matching-passwords command against the
empty store. -/
theorem create_user_success_witness :
    cmdMatch.password1 = cmdMatch.password2 ∧
    listRepo.get_user_by_email_or_nickname [] cmdMatch.email
      cmdMatch.nickname = none ∧
    ∃ user : User,
      user.is_admin = false ∧
      user.location = { lat := cmdMatch.lat, lng := cmdMatch.lng } ∧
      create_user listRepo [] cmdMatch =
        (.ok (), listRepo.save [] user,
          [RepoCall.get_user_by_email_or_nickname cmdMatch.email
             cmdMatch.nickname,
           RepoCall.save user]) ∧
      ((create_user listRepo [] cmdMatch).2.2.countP RepoCall.isSave) = 1 :=
  ⟨rfl, rfl, create_user_success listRepo [] cmdMatch rfl rfl⟩

/-- Claim C4: `login(email, password)` raises `UserNotFoundException` if
and only if no `User` matches the email/password pair; when a `User`
matches, it returns a token pair whose access token equals
`encode(\x7b"user_id": id\x7d)` and whose refresh token equals
`encode(\x7b"sub": "refresh"\x7d)`. -/
theorem login_spec {σ : Type} (encode : Payload → String) (r : RepoImpl σ)
    (s : σ) (email password : String) :
    ((login encode r s email password).1 = .error .userNotFound ↔
      r.get_user_by_email_and_password s email password = none) ∧
    (∀ u : User,
      r.get_user_by_email_and_password s email password = some u →
      (login encode r s email password).1 =
        .ok { token := encode (Payload.user_id u.id)
              refresh_token := encode (Payload.sub "refresh") }) := by
  constructor
  · cases h : r.get_user_by_email_and_password s email password <;>
      simp [login, h]
  · intro u hu
    simp [login, hu]

/-- Witness for C4: login with the stored admin user's credentials
returns exactly the two encoded tokens. -/
theorem login_spec_witness :
    listRepo.get_user_by_email_and_password [adminUser] "h@id.e" "password"
      = some adminUser ∧
    (login encodeStub listRepo [adminUser] "h@id.e" "password").1 =
      .ok { token := encodeStub (Payload.user_id adminUser.id)
            refresh_token := encodeStub (Payload.sub "refresh") } :=
  ⟨rfl,
   (login_spec encodeStub listRepo [adminUser] "h@id.e" "password").2
     adminUser rfl⟩

/-- Claim C5: for every user_id, `is_admin(user_id)` returns false when
the repository's lookup by id returns no `User`, and otherwise returns
exactly the found `User`'s is_admin flag; it never raises on a missing
id (the result is always `ok`). -/
theorem is_admin_spec {σ : Type} (r : RepoImpl σ) (s : σ) (user_id : Int) :
    (is_admin r s user_id).1 =
      .ok (match r.get_user_by_id s user_id with
           | none => false
           | some u => u.is_admin) := by
  cases h : r.get_user_by_id s user_id <;> simp [is_admin, h]

/-- Claim C6: for every limit and prev, `get_user_list(limit, prev)`
calls the repository's `get_users` exactly once with the same limit and
prev, and returns one `UserRead` per returned `User`, in the same order,
with matching id, email, and nickname. -/
theorem get_user_list_spec {σ : Type} (r : RepoImpl σ) (s : σ)
    (limit : Int) (prev : Option Int) :
    (get_user_list r s limit prev).1 =
      (r.get_users s limit prev).map User.toRead ∧
    (get_user_list r s limit prev).2.2 = [RepoCall.get_users limit prev] ∧
    ∀ u : User,
      (User.toRead u).id = u.id ∧
      (User.toRead u).email = u.email ∧
      (User.toRead u).nickname = u.nickname :=
  ⟨rfl, rfl, fun _ => ⟨rfl, rfl, rfl⟩⟩

/-- Claim C8: starting from any store in which no two persisted Users
share an email or a nickname, every `create_user` call against the
list-backed repository preserves that uniqueness. -/
theorem create_user_preserves_uniqueness (s : List User)
    (command : CreateUserCommand) (h : uniqueEmailsAndNicknames s) :
    uniqueEmailsAndNicknames (create_user listRepo s command).2.1 := by
  by_cases hp : command.password1 = command.password2
  · cases hfind : listRepo.get_user_by_email_or_nickname s command.email
        command.nickname with
    | some u =>
      have hst : (create_user listRepo s command).2.1 = s := by
        simp [create_user, hp, hfind]
      rw [hst]; exact h
    | none =>
      have hst : (create_user listRepo s command).2.1 =
          s ++ [{ password := command.password1, email := command.email
                  nickname := command.nickname, is_admin := false
                  location := { lat := command.lat, lng := command.lng } }] := by
        unfold create_user
        rw [if_pos hp, hfind]
        rfl
      rw [hst]
      unfold uniqueEmailsAndNicknames at h ⊢
      rw [List.pairwise_append]
      refine ⟨h, List.pairwise_singleton _ _, ?_⟩
      intro a ha b hb
      rw [List.mem_singleton] at hb
      subst hb
      have hfind' : List.find?
          (fun u => u.email == command.email || u.nickname == command.nickname)
          s = none := hfind
      have hnone := List.find?_eq_none.mp hfind' a ha
      simp only [Bool.or_eq_true, beq_iff_eq, not_or] at hnone
      exact ⟨hnone.1, hnone.2⟩
  · have hst : (create_user listRepo s command).2.1 = s := by
      simp [create_user, hp]
    rw [hst]; exact h

/-- Witness for C8: the empty store satisfies the uniqueness invariant,
and it still holds after creating the test user. -/
theorem create_user_preserves_uniqueness_witness :
    uniqueEmailsAndNicknames [] ∧
    uniqueEmailsAndNicknames (create_user listRepo [] cmdMatch).2.1 :=
  ⟨List.Pairwise.nil,
   create_user_preserves_uniqueness [] cmdMatch List.Pairwise.nil⟩

/-- Counterexample for C9: on an id lookup miss (empty store, id 1),
`is_admin` does not raise `UserNotFoundException` — it returns false. -/
theorem is_admin_miss_counterexample :
    listRepo.get_user_by_id ([] : List User) 1 = none ∧
    (is_admin listRepo ([] : List User) 1).1 ≠ .error .userNotFound :=
  ⟨rfl, fun h => Except.noConfusion h⟩

/-- Claim C9 (amended): when the repository's lookup by id returns no
`User`, `is_admin` returns false without raising; in the service,
`UserNotFoundException` is raised by `login` on a credential lookup
miss. -/
theorem user_not_found_only_on_login_miss {σ : Type} (r : RepoImpl σ)
    (s : σ) (user_id : Int) (encode : Payload → String)
    (email password : String)
    (hid : r.get_user_by_id s user_id = none)
    (hcred : r.get_user_by_email_and_password s email password = none) :
    (is_admin r s user_id).1 = .ok false ∧
    (login encode r s email password).1 = .error .userNotFound := by
  constructor
  · simp [is_admin, hid]
  · simp [login, hcred]

/-- Witness for the amended C9: id 1 and the test credentials against
the empty store. -/
theorem user_not_found_only_on_login_miss_witness :
    (is_admin listRepo ([] : List User) 1).1 = .ok false ∧
    (login encodeStub listRepo [] "email" "password").1 =
      .error .userNotFound :=
  user_not_found_only_on_login_miss listRepo [] 1 encodeStub "email"
    "password" rfl rfl

/-- Claim C10: for every `CreateUserCommand` whose password1 differs
from password2, `create_user` raises `PasswordDoesNotMatchException`
before performing any repository operation: its call trace is empty (so
neither the lookup by email or nickname nor `save` is invoked) and the
store is unchanged. -/
theorem create_user_password_mismatch_no_repo_calls {σ : Type}
    (r : RepoImpl σ) (s : σ) (command : CreateUserCommand)
    (h : command.password1 ≠ command.password2) :
    create_user r s command =
      (.error .passwordDoesNotMatch, s, ([] : List RepoCall)) := by
  simp [create_user, h]

/-- Witness for C10: the test's mismatching-passwords command against a
one-element store leaves the store untouched and records no repository
call. -/
theorem create_user_password_mismatch_no_repo_calls_witness :
    cmdMismatch.password1 ≠ cmdMismatch.password2 ∧
    create_user listRepo [hideUser] cmdMismatch =
      (.error .passwordDoesNotMatch, [hideUser], ([] : List RepoCall)) :=
  ⟨by decide,
   create_user_password_mismatch_no_repo_calls listRepo [hideUser]
     cmdMismatch (by decide)⟩
